import Mathlib

/-!
Verification development for the Steam_Metadata_Fetcher repository.

The embedding below translates the two core components of
src/Steam_Metadata_Fetcher.py into Lean:

- SteamGridDbClient (set_api_key, search_game): modelled as pure state
  passing; the HTTP layer is an oracle `net : HttpRequest → HttpAnswer`
  and each call records the list of outbound requests it issued, so
  frame and no-network-call properties are statable.
- ScanThread (run, scan_local_games): the filesystem is an oracle
  `glob : String → Except String (List String)` (result list, or the
  message of the raised exception); the progress channel and the list of
  glob invocations are recorded alongside the returned records.

Python library calls that the source relies on (str.strip, str.lower,
substring containment via the in operator, os.path.basename,
os.path.splitext, os.path.join, requests.utils.quote) are embedded as
executable Lean functions over character lists, faithful to their
documented behaviour on the inputs this program can produce
(ntpath-style separators, ASCII denylist substrings).
-/

/-- Python str.strip() with no argument strips exactly these characters. -/
def pyIsSpace (c : Char) : Bool :=
  c = ' ' || c = '\t' || c = '\n' || c = '\x0d' || c = '\x0b' || c = '\x0c'

/-- Python str.strip(): drop leading and trailing whitespace. -/
def pyStrip (s : String) : String :=
  ⟨((s.data.dropWhile pyIsSpace).reverse.dropWhile pyIsSpace).reverse⟩

/-- ASCII lowercasing of one character, as Python str.lower() acts on the
ASCII range (the only range the denylist comparison can be sensitive to). -/
def asciiLower (c : Char) : Char :=
  if 'A' ≤ c && c ≤ 'Z' then Char.ofNat (c.toNat + 32) else c

/-- Python str.lower() on the string level. -/
def lowerStr (s : String) : String :=
  ⟨s.data.map asciiLower⟩

/-- Substring containment over character lists: the Python in operator on
strings. An empty needle is contained in everything. -/
def containsSub : List Char → List Char → Bool
  | hay, needle =>
    needle.isPrefixOf hay ||
      match hay with
      | [] => false
      | _ :: rest => containsSub rest needle

/-- Python `needle in hay` for strings. -/
def strContains (hay needle : String) : Bool :=
  containsSub hay.data needle.data

/-- Boolean string-prefix test over character lists. -/
def strHasPrefix (p s : String) : Bool :=
  p.data.isPrefixOf s.data

/-- UTF-8 encoding of a Unicode code point, as a list of byte values. -/
def utf8Bytes (n : Nat) : List Nat :=
  if n < 0x80 then [n]
  else if n < 0x800 then [0xC0 + n / 64, 0x80 + n % 64]
  else if n < 0x10000 then [0xE0 + n / 4096, 0x80 + (n / 64) % 64, 0x80 + n % 64]
  else [0xF0 + n / 262144, 0x80 + (n / 4096) % 64, 0x80 + (n / 64) % 64, 0x80 + n % 64]

/-- Uppercase hexadecimal digit for a value below 16. -/
def hexDigit (n : Nat) : Char :=
  if n < 10 then Char.ofNat (48 + n) else Char.ofNat (55 + n)

/-- Percent-encoding of one byte value, with uppercase hex digits. -/
def pctByte (n : Nat) : String :=
  ⟨['%', hexDigit (n / 16), hexDigit (n % 16)]⟩

/-- Characters requests.utils.quote leaves untouched: the unreserved set
plus the default safe character. -/
def quoteSafe (c : Char) : Bool :=
  ('A' ≤ c && c ≤ 'Z') || ('a' ≤ c && c ≤ 'z') || ('0' ≤ c && c ≤ '9') ||
    c = '_' || c = '.' || c = '-' || c = '~' || c = '/'

/-- requests.utils.quote: percent-encode everything outside the safe set,
byte by byte of the UTF-8 encoding. -/
def urlQuote (s : String) : String :=
  String.join (s.data.map fun c =>
    if quoteSafe c then String.singleton c
    else String.join ((utf8Bytes c.toNat).map pctByte))

/-- Minimal JSON value type, the carrier for parsed response bodies. -/
inductive Json where
  | null
  | jbool (b : Bool)
  | jnum (n : Int)
  | jstr (s : String)
  | jarr (elems : List Json)
  | jobj (fields : List (String × Json))

/-- The mutable fields of SteamGridDbClient. The api_key starts as
os.getenv, which yields None when the variable is absent, hence Option. -/
structure ClientState where
  base_url : String
  api_key : Option String

/-- SteamGridDbClient.__init__, with the environment value as a parameter. -/
def mkClient (envKey : Option String) : ClientState :=
  { base_url := "https://www.steamgriddb.com/api/v2", api_key := envKey }

/-- SteamGridDbClient.set_api_key: store the stripped key. -/
def set_api_key (st : ClientState) (api_key : String) : ClientState :=
  { st with api_key := some (pyStrip api_key) }

/-- Python truthiness of the stored key: None and the empty string are
falsy, every other string is truthy. -/
def keyTruthy : Option String → Bool
  | none => false
  | some s => !s.isEmpty

/-- The exact error message search_game returns when the key is unset. -/
def missingKeyMsg : String :=
  "API key not set. Please retrieve one at https://www.steamgriddb.com/profile/preferences/api"

/-- One outbound HTTP GET: the url and the Authorization header value. -/
structure HttpRequest where
  url : String
  bearer : String
deriving DecidableEq

/-- What the HTTP layer can do on a request: deliver a response with a
status code and a body whose JSON parse succeeds or raises, or raise a
transport exception with a message. -/
inductive HttpAnswer where
  | response (status : Nat) (body : Except String Json)
  | raised (message : String)

/-- The value search_game returns: parsed JSON verbatim, or an error dict
modelled by its single error string. -/
inductive SearchResult where
  | success (payload : Json)
  | error (message : String)

/-- The request search_game builds once the key check passed. -/
def theRequest (st : ClientState) (game_name : String) : HttpRequest :=
  { url := st.base_url ++ "/search/autocomplete/" ++ urlQuote game_name,
    bearer := "Bearer " ++ st.api_key.getD "" }

/-- Everything observable about one search_game call: the client state
afterwards, the returned value, and the outbound requests issued. -/
structure CallOutcome where
  state : ClientState
  result : SearchResult
  requests : List HttpRequest

/-- SteamGridDbClient.search_game against a network oracle. The method
body never assigns to self, so the outgoing state is the incoming one. -/
def search_game (st : ClientState) (game_name : String)
    (net : HttpRequest → HttpAnswer) : CallOutcome :=
  if !keyTruthy st.api_key then
    { state := st, result := .error missingKeyMsg, requests := [] }
  else
    match net (theRequest st game_name) with
    | .response status body =>
        if status = 200 then
          match body with
          | .ok j =>
              { state := st, result := .success j,
                requests := [theRequest st game_name] }
          | .error m =>
              { state := st, result := .error ("Request failed: " ++ m),
                requests := [theRequest st game_name] }
        else
          { state := st, result := .error ("API request failed: " ++ toString status),
            requests := [theRequest st game_name] }
    | .raised m =>
        { state := st, result := .error ("Request failed: " ++ m),
          requests := [theRequest st game_name] }

/-- Character that ntpath treats as a path separator. -/
def isSep (c : Char) : Bool :=
  c = '\\' || c = '/'

/-- os.path.basename (ntpath): everything after the last separator. The
drive-letter special case does not arise for the glob results of this
program, whose patterns always contain separators. -/
def basename (s : String) : String :=
  ⟨(s.data.reverse.takeWhile (fun c => !isSep c)).reverse⟩

/-- os.path.splitext: split off the extension at the last dot, provided a
non-dot character exists before it (leading dots never start an
extension). Applied here only to basenames, which contain no separator. -/
def splitext (s : String) : String × String :=
  let dots := s.data.takeWhile (fun c => c == '.')
  let rest := s.data.dropWhile (fun c => c == '.')
  if rest.contains '.' then
    let revRest := rest.reverse
    let extRev := revRest.takeWhile (fun c => c != '.')
    let stemRev := revRest.dropWhile (fun c => c != '.')
    (⟨dots ++ (stemRev.drop 1).reverse⟩, ⟨'.' :: extRev.reverse⟩)
  else
    (s, "")

/-- os.path.join (ntpath) for the shapes this program produces: append a
backslash unless the first part is empty or already ends in a separator
or a drive colon. -/
def ntJoin (p q : String) : String :=
  if p = "" then q
  else
    match p.data.getLast? with
    | some c => if isSep c || c = ':' then p ++ q else p ++ "\\" ++ q
    | none => q

/-- One discovered game: the dict scan_local_games appends. -/
structure GameRecord where
  name : String
  path : String
  type : String
deriving DecidableEq

/-- The fixed denylist of filename substrings. -/
def denylist : List String :=
  ["unins", "install", "setup", "unreal"]

/-- The skip test of the scan loop: some denylist entry occurs in the
lowercased filename. -/
def denyHit (filename : String) : Bool :=
  denylist.any (fun skip => strContains (lowerStr filename) skip)

/-- The body of the per-file loop: skip a denylisted filename, otherwise
build the record with the extension-stripped name, the matched path and
the literal type local. -/
def mkRecord (file : String) : Option GameRecord :=
  let filename := basename file
  if denyHit filename then none
  else some { name := (splitext filename).1, path := file, type := "local" }

/-- Records contributed by one glob result list: only the first 10
matches are visited, then the denylist filter applies. -/
def processFiles (files : List String) : List GameRecord :=
  (files.take 10).filterMap mkRecord

/-- The filesystem oracle and the environment-dependent third root
(os.path.expanduser applied to the desktop pattern). glob.glob either
returns the match list or raises, with str of the exception as message. -/
structure ScanEnv where
  glob : String → Except String (List String)
  desktopStar : String

/-- game_extensions in scan_local_games. -/
def game_extensions : List String := ["*.exe"]

/-- common_paths in scan_local_games. -/
def common_paths (env : ScanEnv) : List String :=
  ["C:\\Program Files\\*", "C:\\Program Files (x86)\\*", env.desktopStar]

/-- The (path, extension) pairs the nested loops visit, in order. -/
def allPairs (env : ScanEnv) : List (String × String) :=
  (common_paths env).flatMap fun p => game_extensions.map fun ext => (p, ext)

/-- Observable outcome of scan_local_games: progress messages emitted,
glob patterns invoked, and the returned record list. -/
structure LocalScan where
  progress : List String
  globCalls : List String
  games : List GameRecord

/-- One iteration of the nested loop body: call glob on the joined
pattern; on success append the surviving records, on an exception append
the error progress message instead. -/
def scanStep (env : ScanEnv) (acc : LocalScan) (pe : String × String) : LocalScan :=
  let pattern := ntJoin pe.1 pe.2
  match env.glob pattern with
  | .ok files =>
      { acc with globCalls := acc.globCalls ++ [pattern],
                 games := acc.games ++ processFiles files }
  | .error e =>
      { acc with progress := acc.progress ++ ["Error scanning " ++ pe.1 ++ ": " ++ e],
                 globCalls := acc.globCalls ++ [pattern] }

/-- ScanThread.scan_local_games: emit the initial progress message, run
the nested loops, and return the aggregate truncated to 15 records. -/
def scan_local_games (env : ScanEnv) : LocalScan :=
  let r := (allPairs env).foldl (scanStep env)
    { progress := ["Scanning for game executables..."], globCalls := [], games := [] }
  { r with games := r.games.take 15 }

/-- An element of the list the finished signal carries: a record dict for
local scans, a bare string for the unimplemented modes. -/
inductive ScanItem where
  | record (r : GameRecord)
  | message (s : String)
deriving DecidableEq

/-- Observable outcome of ScanThread.run. -/
structure ScanRun where
  progress : List String
  globCalls : List String
  items : List ScanItem

/-- ScanThread.run: dispatch on scan_type; steam and every non-local
non-steam mode yield one placeholder string and touch nothing else. -/
def runScan (env : ScanEnv) (scan_type : String) : ScanRun :=
  if scan_type = "local" then
    let s := scan_local_games env
    { progress := s.progress, globCalls := s.globCalls,
      items := s.games.map ScanItem.record }
  else if scan_type = "steam" then
    { progress := [], globCalls := [],
      items := [.message "Steam scanning not implemented yet"] }
  else
    { progress := [], globCalls := [],
      items := [.message "Epic scanning not implemented yet"] }

/-- Records one (path, extension) pair contributes: none when its glob
call raises. -/
def pairRecords (env : ScanEnv) (pe : String × String) : List GameRecord :=
  match env.glob (ntJoin pe.1 pe.2) with
  | .ok files => processFiles files
  | .error _ => []

/-- Progress messages one (path, extension) pair emits: exactly the error
line when its glob call raises, nothing otherwise. -/
def pairErrs (env : ScanEnv) (pe : String × String) : List String :=
  match env.glob (ntJoin pe.1 pe.2) with
  | .ok _ => []
  | .error e => ["Error scanning " ++ pe.1 ++ ": " ++ e]

/-- The untruncated aggregate of records across all pairs, for stating
where the 15-cap is applied. -/
def aggregateGames (env : ScanEnv) : List GameRecord :=
  (allPairs env).flatMap (pairRecords env)

/-- The progress messages of the whole scan, described compositionally. -/
def aggregateProgress (env : ScanEnv) : List String :=
  "Scanning for game executables..." :: (allPairs env).flatMap (pairErrs env)

/-- The nested-loop fold appends, per channel, exactly the per-pair
contributions in order. -/
theorem scan_foldl_spec (env : ScanEnv) (pairs : List (String × String))
    (acc : LocalScan) :
    pairs.foldl (scanStep env) acc =
      { progress := acc.progress ++ pairs.flatMap (pairErrs env),
        globCalls := acc.globCalls ++ pairs.map (fun pe => ntJoin pe.1 pe.2),
        games := acc.games ++ pairs.flatMap (pairRecords env) } := by
  induction pairs generalizing acc with
  | nil => simp
  | cons pe rest ih =>
      rw [List.foldl_cons, ih]
      unfold scanStep pairErrs pairRecords
      cases h : env.glob (ntJoin pe.1 pe.2) <;> simp [h]

/-- scan_local_games in compositional form: the three channels are the
initial message plus per-pair error lines, the joined patterns, and the
15-truncated aggregate of per-pair records. -/
theorem scan_local_games_spec (env : ScanEnv) :
    scan_local_games env =
      { progress := aggregateProgress env,
        globCalls := (allPairs env).map (fun pe => ntJoin pe.1 pe.2),
        games := (aggregateGames env).take 15 } := by
  unfold scan_local_games aggregateProgress aggregateGames
  rw [scan_foldl_spec]
  simp

section Helpers

/-- search_game never changes the client state: every branch returns the
incoming state. -/
theorem search_game_state (st : ClientState) (q : String)
    (net : HttpRequest → HttpAnswer) : (search_game st q net).state = st := by
  unfold search_game
  split
  · rfl
  · split
    · split
      · split <;> rfl
      · rfl
    · rfl

/-- With a truthy key, search_game issues exactly the one built request. -/
theorem search_game_requests_key (st : ClientState) (q : String)
    (net : HttpRequest → HttpAnswer) (h : keyTruthy st.api_key = true) :
    (search_game st q net).requests = [theRequest st q] := by
  unfold search_game
  rw [h]
  simp only [Bool.not_true, Bool.false_eq_true, if_false]
  split
  · split
    · split <;> rfl
    · rfl
  · rfl

/-- The paths of the records a file list yields are the denylist-filtered
files, in source order. -/
theorem map_path_filterMap (l : List String) :
    (l.filterMap mkRecord).map GameRecord.path
      = l.filter (fun f => !denyHit (basename f)) := by
  induction l with
  | nil => rfl
  | cons f t ih =>
      cases hd : denyHit (basename f) <;>
        simp [mkRecord, hd, ih]

/-- Every returned record survived the denylist test on its own path. -/
theorem games_no_denyHit (env : ScanEnv) :
    ∀ r ∈ (scan_local_games env).games, denyHit (basename r.path) = false := by
  intro r hr
  rw [scan_local_games_spec] at hr
  have hr' := List.mem_of_mem_take hr
  rw [aggregateGames, List.mem_flatMap] at hr'
  obtain ⟨pe, _, hpe⟩ := hr'
  rw [pairRecords] at hpe
  cases hg : env.glob (ntJoin pe.1 pe.2) with
  | error e => rw [hg] at hpe; simp at hpe
  | ok files =>
      rw [hg] at hpe
      simp only [processFiles, List.mem_filterMap] at hpe
      obtain ⟨f, _, hf⟩ := hpe
      rw [mkRecord] at hf
      cases hd : denyHit (basename f) with
      | true => simp [hd] at hf
      | false =>
          simp only [hd, if_neg, Bool.false_eq_true, not_false_iff, ite_false] at hf
          cases hf
          exact hd

end Helpers

/-- C1 counterexample: with the key unset the code does reply immediately
with no request, but the error message is the long variant pointing at
the API-key page, not the exact string the claim asserts. -/
theorem c1_missing_key_counterexample :
    (search_game (mkClient none) "Portal" (fun _ => HttpAnswer.raised "down")).result
        = SearchResult.error missingKeyMsg
    ∧ (search_game (mkClient none) "Portal" (fun _ => HttpAnswer.raised "down")).requests = []
    ∧ missingKeyMsg ≠ "API key not set" :=
  ⟨rfl, rfl, by decide⟩

/-- C1 (amended): for every query, when the stored key is unset (absent
or empty) search_game immediately returns an error result whose message
begins with API key not set, and issues no network request. -/
theorem c1_missing_key_short_circuit (st : ClientState) (q : String)
    (net : HttpRequest → HttpAnswer) (h : keyTruthy st.api_key = false) :
    (search_game st q net).result = SearchResult.error missingKeyMsg ∧
    strHasPrefix "API key not set" missingKeyMsg = true ∧
    (search_game st q net).requests = [] := by
  unfold search_game
  rw [h]
  exact ⟨rfl, by decide, rfl⟩

/-- C1 witness: the empty query against an empty stored key. -/
theorem c1_missing_key_witness :
    (search_game (mkClient (some "")) "" (fun _ => HttpAnswer.raised "down")).result
        = SearchResult.error missingKeyMsg ∧
    strHasPrefix "API key not set" missingKeyMsg = true ∧
    (search_game (mkClient (some "")) "" (fun _ => HttpAnswer.raised "down")).requests = [] :=
  c1_missing_key_short_circuit (mkClient (some "")) ""
    (fun _ => HttpAnswer.raised "down") (by decide)

/-- C2: with a key set, the result is fixed by the HTTP outcome in three
branches: 200 returns the parsed body verbatim, any other status c gives
API request failed c, and any raised transport exception, or a JSON
parse failure of a 200 body, gives Request failed with its message. -/
theorem c2_result_mapping (st : ClientState) (q : String)
    (net : HttpRequest → HttpAnswer) (h : keyTruthy st.api_key = true) :
    (∀ j, net (theRequest st q) = .response 200 (.ok j) →
        (search_game st q net).result = .success j) ∧
    (∀ c body, c ≠ 200 → net (theRequest st q) = .response c body →
        (search_game st q net).result = .error ("API request failed: " ++ toString c)) ∧
    (∀ m, net (theRequest st q) = .response 200 (.error m) →
        (search_game st q net).result = .error ("Request failed: " ++ m)) ∧
    (∀ m, net (theRequest st q) = .raised m →
        (search_game st q net).result = .error ("Request failed: " ++ m)) := by
  refine ⟨?_, ?_, ?_, ?_⟩
  · intro j hj
    unfold search_game
    rw [h]
    simp only [Bool.not_true, Bool.false_eq_true, if_false, hj]
    rw [if_pos trivial]
  · intro c body hc hb
    unfold search_game
    rw [h]
    simp only [Bool.not_true, Bool.false_eq_true, if_false, hb]
    rw [if_neg hc]
  · intro m hm
    unfold search_game
    rw [h]
    simp only [Bool.not_true, Bool.false_eq_true, if_false, hm]
    rw [if_pos trivial]
  · intro m hm
    unfold search_game
    rw [h]
    simp only [Bool.not_true, Bool.false_eq_true, if_false, hm]

/-- C2 witness: a 404 response yields API request failed 404. -/
theorem c2_result_mapping_witness :
    (search_game (mkClient (some "KEY")) "Portal"
        (fun _ => HttpAnswer.response 404 (Except.ok Json.null))).result
      = SearchResult.error "API request failed: 404" := by
  have h2 := (c2_result_mapping (mkClient (some "KEY")) "Portal"
      (fun _ => HttpAnswer.response 404 (Except.ok Json.null)) (by decide)).2.1
      404 (Except.ok Json.null) (by decide) rfl
  have hs : ("API request failed: " ++ toString (404 : Nat))
      = "API request failed: 404" := by decide
  rw [hs] at h2
  exact h2

/-- C3: every local scan returns at most 15 records, and the returned
list is the first 15 of the aggregate built across all roots and
extensions, so truncation happens once at the end, not per root. -/
theorem c3_truncate_after_aggregate (env : ScanEnv) :
    (scan_local_games env).games.length ≤ 15 ∧
    (scan_local_games env).games = (aggregateGames env).take 15 := by
  rw [scan_local_games_spec]
  exact ⟨List.length_take_le _ _, rfl⟩

/-- C4: a scan started with mode steam or epic yields exactly one
placeholder string containing not implemented yet, and performs no glob
call and emits no progress. -/
theorem c4_stub_modes (env : ScanEnv) (mode : String)
    (h : mode = "steam" ∨ mode = "epic") :
    (∃ s, (runScan env mode).items = [ScanItem.message s] ∧
        strContains s "not implemented yet" = true) ∧
    (runScan env mode).globCalls = [] ∧
    (runScan env mode).progress = [] := by
  rcases h with h | h <;> subst h <;>
    exact ⟨⟨_, rfl, by decide⟩, rfl, rfl⟩

/-- C4 witness: the steam mode against a concrete environment. -/
theorem c4_stub_modes_witness :
    (∃ s, (runScan ⟨fun _ => Except.ok [], "D:\\Desktop\\*"⟩ "steam").items
          = [ScanItem.message s] ∧
        strContains s "not implemented yet" = true) ∧
    (runScan ⟨fun _ => Except.ok [], "D:\\Desktop\\*"⟩ "steam").globCalls = [] ∧
    (runScan ⟨fun _ => Except.ok [], "D:\\Desktop\\*"⟩ "steam").progress = [] :=
  c4_stub_modes ⟨fun _ => Except.ok [], "D:\\Desktop\\*"⟩ "steam" (Or.inl rfl)

/-- C5: a (root, extension) pair whose glob call returns files
contributes exactly the records of the first 10 matches, so matches past
index 10 are dropped before the denylist filter; the surviving records
keep the source order of those first 10 matches. -/
theorem c5_first_ten_considered (env : ScanEnv) (p ext : String)
    (files : List String)
    (h : env.glob (ntJoin p ext) = Except.ok files) :
    pairRecords env (p, ext) = processFiles (files.take 10) ∧
    (pairRecords env (p, ext)).map GameRecord.path
      = (files.take 10).filter (fun f => !denyHit (basename f)) := by
  have hrec : pairRecords env (p, ext) = processFiles files := by
    simp [pairRecords, h]
  constructor
  · rw [hrec]
    simp [processFiles, List.take_take]
  · rw [hrec]
    exact map_path_filterMap _

/-- Twelve glob matches used to exercise the 10-match cut. -/
def sampleFiles : List String :=
  ["C:\\Program Files\\A\\g01.exe", "C:\\Program Files\\A\\g02.exe",
   "C:\\Program Files\\A\\setup.exe", "C:\\Program Files\\A\\g04.exe",
   "C:\\Program Files\\A\\g05.exe", "C:\\Program Files\\A\\g06.exe",
   "C:\\Program Files\\A\\UNINS000.exe", "C:\\Program Files\\A\\g08.exe",
   "C:\\Program Files\\A\\g09.exe", "C:\\Program Files\\A\\g10.exe",
   "C:\\Program Files\\A\\g11.exe", "C:\\Program Files\\A\\g12.exe"]

/-- C5 witness: a twelve-match glob result on a concrete environment. -/
theorem c5_first_ten_considered_witness :
    pairRecords ⟨fun _ => Except.ok sampleFiles, "D:\\Desktop\\*"⟩
        ("C:\\Program Files\\*", "*.exe")
      = processFiles (sampleFiles.take 10) ∧
    (pairRecords ⟨fun _ => Except.ok sampleFiles, "D:\\Desktop\\*"⟩
        ("C:\\Program Files\\*", "*.exe")).map GameRecord.path
      = (sampleFiles.take 10).filter (fun f => !denyHit (basename f)) :=
  c5_first_ten_considered ⟨fun _ => Except.ok sampleFiles, "D:\\Desktop\\*"⟩
    "C:\\Program Files\\*" "*.exe" sampleFiles rfl

/-- C6: a matched file whose filename, lowercased, contains a denylist
substring yields no record in the scan result: no returned record has
its path. -/
theorem c6_denylist_excludes (env : ScanEnv) (file : String)
    (h : denyHit (basename file) = true) :
    ∀ r ∈ (scan_local_games env).games, r.path ≠ file := by
  intro r hr he
  have hno := games_no_denyHit env r hr
  rw [he, h] at hno
  exact Bool.noConfusion hno

/-- C6 witness: in a scan whose glob yields Setup.exe and Game.exe, the
one returned record is not the denylisted Setup.exe. -/
theorem c6_denylist_excludes_witness :
    (⟨"Game", "C:\\Program Files\\Foo\\Game.exe", "local"⟩ : GameRecord).path
      ≠ "C:\\Program Files\\Foo\\Setup.exe" :=
  c6_denylist_excludes
    ⟨fun _ => Except.ok
        ["C:\\Program Files\\Foo\\Setup.exe", "C:\\Program Files\\Foo\\Game.exe"],
      "D:\\Desktop\\*"⟩
    "C:\\Program Files\\Foo\\Setup.exe" (by decide)
    ⟨"Game", "C:\\Program Files\\Foo\\Game.exe", "local"⟩ (by decide)

/-- C7: every returned record carries the extension-stripped filename of
its own path as name, the literal type local, and its path is one of the
first 10 glob matches of some scanned (root, extension) pair. -/
theorem c7_record_fields (env : ScanEnv) :
    ∀ r ∈ (scan_local_games env).games,
      r.name = (splitext (basename r.path)).1 ∧ r.type = "local" ∧
      ∃ pe ∈ allPairs env, ∃ files,
        env.glob (ntJoin pe.1 pe.2) = Except.ok files ∧ r.path ∈ files.take 10 := by
  intro r hr
  rw [scan_local_games_spec] at hr
  have hr' := List.mem_of_mem_take hr
  rw [aggregateGames, List.mem_flatMap] at hr'
  obtain ⟨pe, hpe, hin⟩ := hr'
  rw [pairRecords] at hin
  cases hg : env.glob (ntJoin pe.1 pe.2) with
  | error e => rw [hg] at hin; simp at hin
  | ok files =>
      rw [hg] at hin
      simp only [processFiles, List.mem_filterMap] at hin
      obtain ⟨f, hf10, hf⟩ := hin
      rw [mkRecord] at hf
      cases hd : denyHit (basename f) with
      | true => simp [hd] at hf
      | false =>
          simp only [hd, Bool.false_eq_true, not_false_iff, ite_false] at hf
          cases hf
          exact ⟨rfl, rfl, pe, hpe, files, hg, hf10⟩

/-- C7 witness: one surviving record on a concrete environment. -/
theorem c7_record_fields_witness :
    (⟨"Game", "C:\\Program Files\\Foo\\Game.exe", "local"⟩ : GameRecord).name
        = (splitext (basename
            (⟨"Game", "C:\\Program Files\\Foo\\Game.exe", "local"⟩ : GameRecord).path)).1 ∧
    (⟨"Game", "C:\\Program Files\\Foo\\Game.exe", "local"⟩ : GameRecord).type = "local" ∧
    ∃ pe ∈ allPairs ⟨fun _ => Except.ok ["C:\\Program Files\\Foo\\Game.exe"],
        "D:\\Desktop\\*"⟩, ∃ files,
      (fun _ => Except.ok ["C:\\Program Files\\Foo\\Game.exe"] :
          String → Except String (List String)) (ntJoin pe.1 pe.2) = Except.ok files ∧
      (⟨"Game", "C:\\Program Files\\Foo\\Game.exe", "local"⟩ : GameRecord).path
        ∈ files.take 10 :=
  c7_record_fields
    ⟨fun _ => Except.ok ["C:\\Program Files\\Foo\\Game.exe"], "D:\\Desktop\\*"⟩
    ⟨"Game", "C:\\Program Files\\Foo\\Game.exe", "local"⟩ (by decide)

/-- C8: when the glob call of a scanned root raises, the scan emits a
progress line naming that root and the error text, that pair contributes
no records, and the scan still returns the truncated aggregate of all
pairs, so the failure is not fatal. -/
theorem c8_error_nonfatal (env : ScanEnv) (p ext e : String)
    (hmem : (p, ext) ∈ allPairs env)
    (h : env.glob (ntJoin p ext) = Except.error e) :
    ("Error scanning " ++ p ++ ": " ++ e) ∈ (scan_local_games env).progress ∧
    pairRecords env (p, ext) = [] ∧
    (scan_local_games env).games = (aggregateGames env).take 15 := by
  rw [scan_local_games_spec]
  refine ⟨?_, ?_, rfl⟩
  · unfold aggregateProgress
    refine List.mem_cons_of_mem _ ?_
    rw [List.mem_flatMap]
    exact ⟨(p, ext), hmem, by simp [pairErrs, h]⟩
  · simp [pairRecords, h]

/-- C8 witness: a permission-denied root on a concrete environment. -/
theorem c8_error_nonfatal_witness :
    ("Error scanning " ++ "C:\\Program Files\\*" ++ ": " ++ "Permission denied")
        ∈ (scan_local_games
            ⟨fun _ => Except.error "Permission denied", "D:\\Desktop\\*"⟩).progress ∧
    pairRecords ⟨fun _ => Except.error "Permission denied", "D:\\Desktop\\*"⟩
        ("C:\\Program Files\\*", "*.exe") = [] ∧
    (scan_local_games
        ⟨fun _ => Except.error "Permission denied", "D:\\Desktop\\*"⟩).games
      = (aggregateGames
          ⟨fun _ => Except.error "Permission denied", "D:\\Desktop\\*"⟩).take 15 :=
  c8_error_nonfatal ⟨fun _ => Except.error "Permission denied", "D:\\Desktop\\*"⟩
    "C:\\Program Files\\*" "*.exe" "Permission denied" (by decide) rfl

/-- C9: search_game leaves the client state untouched, and with a key
set each call issues exactly one outbound request, so a second call with
the same query on the resulting state issues the same single request
again: two calls, two independent requests, no caching. -/
theorem c9_no_mutation_no_caching (st : ClientState) (q : String)
    (net : HttpRequest → HttpAnswer) (h : keyTruthy st.api_key = true) :
    (search_game st q net).state = st ∧
    (search_game st q net).requests = [theRequest st q] ∧
    (search_game (search_game st q net).state q net).requests = [theRequest st q] ∧
    ((search_game st q net).requests
        ++ (search_game (search_game st q net).state q net).requests).length = 2 := by
  have hst := search_game_state st q net
  have hreq := search_game_requests_key st q net h
  refine ⟨hst, hreq, ?_, ?_⟩
  · rw [hst]; exact hreq
  · rw [hst, hreq]; rfl

/-- C9 witness: two calls on a concrete keyed client and network. -/
theorem c9_no_mutation_no_caching_witness :
    (search_game (mkClient (some "KEY")) "Portal"
        (fun _ => HttpAnswer.response 200 (Except.ok Json.null))).state
      = mkClient (some "KEY") ∧
    (search_game (mkClient (some "KEY")) "Portal"
        (fun _ => HttpAnswer.response 200 (Except.ok Json.null))).requests
      = [theRequest (mkClient (some "KEY")) "Portal"] ∧
    (search_game (search_game (mkClient (some "KEY")) "Portal"
        (fun _ => HttpAnswer.response 200 (Except.ok Json.null))).state "Portal"
        (fun _ => HttpAnswer.response 200 (Except.ok Json.null))).requests
      = [theRequest (mkClient (some "KEY")) "Portal"] ∧
    ((search_game (mkClient (some "KEY")) "Portal"
        (fun _ => HttpAnswer.response 200 (Except.ok Json.null))).requests
      ++ (search_game (search_game (mkClient (some "KEY")) "Portal"
          (fun _ => HttpAnswer.response 200 (Except.ok Json.null))).state "Portal"
          (fun _ => HttpAnswer.response 200 (Except.ok Json.null))).requests).length = 2 :=
  c9_no_mutation_no_caching (mkClient (some "KEY")) "Portal"
    (fun _ => HttpAnswer.response 200 (Except.ok Json.null)) (by decide)

/-- C10: set_api_key stores the stripped key; a key of only whitespace
therefore strips to the empty string, and every later search_game call
returns the missing-key error and issues no request. -/
theorem c10_whitespace_key (st : ClientState) (s q : String)
    (net : HttpRequest → HttpAnswer)
    (h : ∀ c ∈ s.data, pyIsSpace c = true) :
    (set_api_key st s).api_key = some (pyStrip s) ∧
    pyStrip s = "" ∧
    (search_game (set_api_key st s) q net).result = SearchResult.error missingKeyMsg ∧
    (search_game (set_api_key st s) q net).requests = [] := by
  have hstrip : pyStrip s = "" := by
    unfold pyStrip
    rw [List.dropWhile_eq_nil_iff.mpr h]
    rfl
  have hkey : keyTruthy (set_api_key st s).api_key = false := by
    simp only [set_api_key, keyTruthy, hstrip]
    decide
  refine ⟨rfl, hstrip, ?_, ?_⟩
  · unfold search_game
    rw [hkey]
    rfl
  · unfold search_game
    rw [hkey]
    rfl

/-- C10 witness: a key of spaces and a tab, then a lookup. -/
theorem c10_whitespace_key_witness :
    (set_api_key (mkClient none) "  \t ").api_key = some (pyStrip "  \t ") ∧
    pyStrip "  \t " = "" ∧
    (search_game (set_api_key (mkClient none) "  \t ") "Portal"
        (fun _ => HttpAnswer.raised "down")).result
      = SearchResult.error missingKeyMsg ∧
    (search_game (set_api_key (mkClient none) "  \t ") "Portal"
        (fun _ => HttpAnswer.raised "down")).requests = [] :=
  c10_whitespace_key (mkClient none) "  \t " "Portal"
    (fun _ => HttpAnswer.raised "down") (by decide)

